import Mathlib

set_option maxHeartbeats 1000000

namespace Aproxymate

/-- Observable status of a started `kubectl port-forward` subprocess, as read
through `cmd.Process` / `cmd.ProcessState` in `lib/gui.go`.  `exited` models
`cmd.ProcessState != nil && cmd.ProcessState.Exited()`. -/
structure Proc where
  exited : Bool
  exitCode : Int
deriving DecidableEq

/-- One registry row: the `ProxyRow` struct of `lib/gui.go` (the JSON-only
presentation fields are kept; `Process` becomes an `Option Proc`). -/
structure ProxyRow where
  id : String
  cluster : String
  host : String
  localPort : Int
  remotePort : Int
  connected : Bool
  process : Option Proc
  socatPodName : String
  socatNamespace : String
  intentionalStop : Bool
deriving DecidableEq

/-- The registry: the `rows` map guarded by `GUI.mu` in `lib/gui.go`. -/
def Reg : Type := String → Option ProxyRow

/-- `g.rows[k] = r` (Go map store). -/
def Reg.insert (rows : Reg) (k : String) (r : ProxyRow) : Reg :=
  fun q => if q = k then some r else rows q

/-- `delete(g.rows, k)`. -/
def Reg.erase (rows : Reg) (k : String) : Reg :=
  fun q => if q = k then none else rows q

/-- External calls and lock operations that `handleConnect` / `handleDisconnect`
/ the exit watcher / `handleProxyWithID` perform, recorded in order. -/
inductive Ev where
  | lockAcquire
  | lockRelease
  | getClient (ctx : String)
  | createPod (ns podName : String)
  | waitRunning (ns podName : String)
  | startProcess
  | deletePod (ns podName : String)
  | setIntentionalStop
  | killProcess
deriving DecidableEq

/-- Structured cause of the `kubectl port-forward` early-exit classification
(the `switch exitCode` in `handleConnect`, `lib/gui.go`). -/
inductive StartFailCause where
  | privilegedPort (port : Int)
  | portInUse (port : Int)
  | usageError (cluster : String)
  | generic (code port : Int) (cluster : String)
deriving DecidableEq

/-- Error classification of the HTTP handlers in `lib/gui.go`. -/
inductive ApiError where
  | alreadyConnected
  | notFound
  | notConnected
  | clusterConnectivity
  | podCreationFailed
  | podWaitFailed
  | processStartFailed (msg : String)
  | processInitFailed
  | processExitedEarly (cause : StartFailCause)
deriving DecidableEq

/-- Result reported to the HTTP caller. -/
inductive Outcome where
  | success
  | failure (e : ApiError)
deriving DecidableEq

/-- `cmd.ProcessState.ExitCode()` switch of `handleConnect`: exit code 1 is
split on whether the local port is privileged, exit code 2 is a usage error,
anything else is generic. -/
def earlyExitCause (exitCode localPort : Int) (cluster : String) : StartFailCause :=
  if exitCode = 1 then
    if localPort ≤ 1023 then StartFailCause.privilegedPort localPort
    else StartFailCause.portInUse localPort
  else if exitCode = 2 then StartFailCause.usageError cluster
  else StartFailCause.generic exitCode localPort cluster

/-- The user-facing message rendered for each early-exit cause, verbatim from
the `switch exitCode` branch of `handleConnect` in `lib/gui.go`. -/
def startFailMsg : StartFailCause → String
  | StartFailCause.privilegedPort p =>
      "Port forwarding failed: Port " ++ toString p ++ " is a privileged port (1-1023) that requires administrator privileges. Please try using a port above 1023 (e.g., 8080, 9000) or run with elevated permissions"
  | StartFailCause.portInUse p =>
      "Port forwarding failed: Port " ++ toString p ++ " is likely already in use by another service. Please try a different local port or stop the service using port " ++ toString p
  | StartFailCause.usageError cl =>
      "Port forwarding failed due to incorrect usage or invalid arguments. Please check if cluster \x27" ++ cl ++ "\x27 is accessible and the configuration is correct"
  | StartFailCause.generic code p cl =>
      "Port forwarding failed immediately (exit code " ++ toString code ++ "). This usually means local port " ++ toString p ++ " is already in use, requires elevated permissions, or there was a network/authentication issue with cluster \x27" ++ cl ++ "\x27. Please try a different local port or check your cluster connection"

/-- List-level prefix test (for the `strings.Contains` checks of the source). -/
def lpre : List Char → List Char → Bool
  | [], _ => true
  | _ :: _, [] => false
  | a :: as, b :: bs => a == b && lpre as bs

/-- List-level infix test. -/
def linf (pat : List Char) : List Char → Bool
  | [] => lpre pat []
  | c :: cs => lpre pat (c :: cs) || linf pat cs

/-- `strings.Contains s pat`. -/
def strContains (s pat : String) : Bool :=
  linf pat.data s.data

/-- Error text selection of the `cmd.Start()` failure branch of `handleConnect`
(`lib/gui.go`): substring checks on the error message pick the user guidance. -/
def startErrText (localPort : Int) (errMsg : String) : String :=
  if strContains errMsg "permission denied" || strContains errMsg "bind: permission denied" then
    if localPort ≤ 1023 then
      "Permission denied: Port " ++ toString localPort ++ " is a privileged port (1-1023) that requires administrator privileges. Please try using a port above 1023 or run with elevated permissions"
    else
      "Permission denied binding to port " ++ toString localPort ++ ". Please check your system permissions"
  else if strContains errMsg "address already in use" || strContains errMsg "bind: address already in use" then
    "Port " ++ toString localPort ++ " is already in use by another service. Please choose a different local port or stop the service using port " ++ toString localPort
  else if strContains errMsg "kubectl" then
    "kubectl command failed. Please ensure kubectl is installed and properly configured. Error: " ++ errMsg
  else
    "Failed to start port forwarding to local port " ++ toString localPort

/-- Connect request body decoded by `handleConnect`. -/
structure ConnectReq where
  id : String
  cluster : String
  host : String
  localPort : Int
  remotePort : Int
deriving DecidableEq

/-- Outcomes of the external world during one `handleConnect` call:
client acquisition, pod creation, the pod-running wait, `cmd.Start()`, and the
two post-start liveness observations, plus the inputs of the pod-name
generator (`getSafeUsername()` and `time.Now().Unix()`). -/
structure ConnectEnv where
  clientOk : Bool
  createOk : Bool
  waitOk : Bool
  startOk : Bool
  startErrMsg : String
  procNil : Bool
  procExited : Bool
  exitCode : Int
  nowUnix : Int
  username : String
deriving DecidableEq

/-- `fmt.Sprintf("aproxymate-%s-%s-%d", username, req.ID, time.Now().Unix())`. -/
def connectPodName (env : ConnectEnv) (id : String) : String :=
  "aproxymate-" ++ env.username ++ "-" ++ id ++ "-" ++ toString env.nowUnix

/-- Fresh row inserted by `handleConnect` when the id is absent from the map. -/
def newRowOfReq (req : ConnectReq) : ProxyRow :=
  { id := req.id, cluster := req.cluster, host := req.host,
    localPort := req.localPort, remotePort := req.remotePort,
    connected := false, process := none,
    socatPodName := "", socatNamespace := "", intentionalStop := false }

/-- Body of `handleConnect` after the row lookup/insert, mirroring the source
statement by statement.  Every early `return` of the Go code becomes a branch
returning the untouched registry, the reported outcome, and the trace of
external calls made; the whole body runs between `g.mu.Lock()` and the
deferred `g.mu.Unlock()`. -/
def connectCore (rows : Reg) (row : ProxyRow) (req : ConnectReq) (env : ConnectEnv) :
    Reg × Outcome × List Ev :=
  if row.connected then
    (rows, Outcome.failure ApiError.alreadyConnected, [Ev.lockAcquire, Ev.lockRelease])
  else if env.clientOk = false then
    (rows, Outcome.failure ApiError.clusterConnectivity,
     [Ev.lockAcquire, Ev.getClient req.cluster, Ev.lockRelease])
  else
    let podName := connectPodName env req.id
    let ns := "default"
    if env.createOk = false then
      (rows, Outcome.failure ApiError.podCreationFailed,
       [Ev.lockAcquire, Ev.getClient req.cluster, Ev.createPod ns podName, Ev.lockRelease])
    else if env.waitOk = false then
      (rows, Outcome.failure ApiError.podWaitFailed,
       [Ev.lockAcquire, Ev.getClient req.cluster, Ev.createPod ns podName,
        Ev.waitRunning ns podName, Ev.deletePod ns podName, Ev.lockRelease])
    else if env.startOk = false then
      (rows, Outcome.failure (ApiError.processStartFailed (startErrText req.localPort env.startErrMsg)),
       [Ev.lockAcquire, Ev.getClient req.cluster, Ev.createPod ns podName,
        Ev.waitRunning ns podName, Ev.startProcess, Ev.deletePod ns podName, Ev.lockRelease])
    else if env.procNil then
      (rows, Outcome.failure ApiError.processInitFailed,
       [Ev.lockAcquire, Ev.getClient req.cluster, Ev.createPod ns podName,
        Ev.waitRunning ns podName, Ev.startProcess, Ev.deletePod ns podName, Ev.lockRelease])
    else if env.procExited then
      (rows, Outcome.failure (ApiError.processExitedEarly
               (earlyExitCause env.exitCode req.localPort req.cluster)),
       [Ev.lockAcquire, Ev.getClient req.cluster, Ev.createPod ns podName,
        Ev.waitRunning ns podName, Ev.startProcess, Ev.deletePod ns podName, Ev.lockRelease])
    else
      let row' := { row with
        connected := true,
        process := some (Proc.mk false 0),
        socatPodName := podName,
        socatNamespace := ns }
      (Reg.insert rows req.id row', Outcome.success,
       [Ev.lockAcquire, Ev.getClient req.cluster, Ev.createPod ns podName,
        Ev.waitRunning ns podName, Ev.startProcess, Ev.lockRelease])

/-- `handleConnect` of `lib/gui.go`: look the id up, insert a fresh
disconnected row built from the request when absent, then run the body. -/
def handleConnect (rows : Reg) (req : ConnectReq) (env : ConnectEnv) :
    Reg × Outcome × List Ev :=
  match rows req.id with
  | some row => connectCore rows row req env
  | none =>
      let r := newRowOfReq req
      connectCore (Reg.insert rows req.id r) r req env

/-- External outcomes during one `handleDisconnect` call: whether
`GetKubernetesClient` succeeds for the cleanup, whether `Process.Kill`
succeeds, and whether `DeleteSocatProxyPod` succeeds (the latter two only
affect logging in the source). -/
structure DisconnectEnv where
  clientOk : Bool
  killOk : Bool
  deleteOk : Bool
deriving DecidableEq

/-- `handleDisconnect` of `lib/gui.go`: reject a missing or not-connected row;
otherwise mark the stop intentional and kill the process (if any), then
best-effort delete the socat pod (if recorded) and clear its identity, then
clear `Connected`.  Kill/cleanup errors are logged and never fail the call. -/
def handleDisconnect (rows : Reg) (id : String) (env : DisconnectEnv) :
    Reg × Outcome × List Ev :=
  match rows id with
  | none => (rows, Outcome.failure ApiError.notFound, [Ev.lockAcquire, Ev.lockRelease])
  | some row =>
    if row.connected = false then
      (rows, Outcome.failure ApiError.notConnected, [Ev.lockAcquire, Ev.lockRelease])
    else
      let killEv : List Ev :=
        match row.process with
        | some _ => [Ev.setIntentionalStop, Ev.killProcess]
        | none => []
      let row1 : ProxyRow :=
        match row.process with
        | some _ => { row with intentionalStop := true, process := none }
        | none => row
      let cleanEv : List Ev :=
        if row1.socatPodName = "" then []
        else Ev.getClient row.cluster ::
          (if env.clientOk then [Ev.deletePod row.socatNamespace row.socatPodName] else [])
      let row2 : ProxyRow :=
        if row1.socatPodName = "" then row1
        else { row1 with socatPodName := "", socatNamespace := "" }
      let row3 : ProxyRow := { row2 with connected := false }
      (Reg.insert rows id row3, Outcome.success,
       Ev.lockAcquire :: killEv ++ cleanEv ++ [Ev.lockRelease])

/-- Per-row body of `handleStatus` (`lib/gui.go`): if the recorded process has
observably exited, clear `Connected` and the process handle; the socat pod
identity is left untouched. -/
def statusRow (row : ProxyRow) : ProxyRow :=
  match row.process with
  | some p =>
      if p.exited then { row with connected := false, process := none } else row
  | none => row

/-- `handleStatus` iterates the whole map and applies the per-row update. -/
def handleStatus (rows : Reg) : Reg :=
  fun q => (rows q).map statusRow

/-- What the exit-watcher goroutine observes: whether `cmd.Wait()` returned a
non-nil error, and whether `GetKubernetesClient` succeeds for pod cleanup. -/
structure WatchEnv where
  waitErr : Bool
  clientOk : Bool
deriving DecidableEq

/-- How the exit-watcher goroutine logs the subprocess exit. -/
inductive ExitClass where
  | intentional
  | unexpected
  | normalExit
deriving DecidableEq

/-- Body of the exit-watcher goroutine spawned by `handleConnect`
(`lib/gui.go`): once `cmd.Wait()` returns, clear `Connected` and the process
handle, delete the socat pod if one is still recorded (and a client can be
acquired) and clear its identity, classify the exit, and reset
`IntentionalStop`. -/
def watcherRow (row : ProxyRow) (env : WatchEnv) : ProxyRow × List Ev × ExitClass :=
  let row1 : ProxyRow := { row with connected := false, process := none }
  let ev : List Ev :=
    if row1.socatPodName = "" then []
    else Ev.getClient row.cluster ::
      (if env.clientOk then [Ev.deletePod row.socatNamespace row.socatPodName] else [])
  let row2 : ProxyRow :=
    if row1.socatPodName = "" then row1
    else { row1 with socatPodName := "", socatNamespace := "" }
  let cls : ExitClass :=
    if env.waitErr then
      if row2.intentionalStop then ExitClass.intentional else ExitClass.unexpected
    else ExitClass.normalExit
  ({ row2 with intentionalStop := false }, ev, cls)

/-- The exit watcher under the lock: it looks the id up again and does nothing
when the row has been removed. -/
def exitWatcher (rows : Reg) (id : String) (env : WatchEnv) :
    Reg × List Ev × Option ExitClass :=
  match rows id with
  | none => (rows, [], none)
  | some row =>
      let r := watcherRow row env
      (Reg.insert rows id r.1, r.2.1, some r.2.2)

/-- `handleProxyWithID` (DELETE) of `lib/gui.go`: kill the process when the
row is connected and holds one, then delete the row from the map.  No pod
deletion is ever issued here. -/
def handleRemove (rows : Reg) (id : String) : Reg × List Ev :=
  match rows id with
  | none => (rows, [Ev.lockAcquire, Ev.lockRelease])
  | some row =>
      let ev : List Ev :=
        if row.connected && row.process.isSome then [Ev.killProcess] else []
      (Reg.erase rows id, Ev.lockAcquire :: ev ++ [Ev.lockRelease])

/-- A pod as seen by the startup reaper: its name, namespace, and the two
labels the ownership selector `aproxymate.managed=true,user=<u>` inspects
(`CleanupOrphanedAproxymatePodsForUser`, `lib/config_creator.go`). -/
structure ClusterPod where
  name : String
  ns : String
  managed : Bool
  user : String
deriving DecidableEq

/-- The label selector `aproxymate.managed=true,user=<u>`. -/
def selectorMatches (u : String) (p : ClusterPod) : Bool :=
  p.managed && p.user == u

/-- `CleanupOrphanedAproxymatePodsForUser`: list the pods of the given
namespace (defaulted to `default`) matching the ownership selector; each
listed pod gets a delete call (individual delete failures are only logged). -/
def cleanupOrphanedPodsForUser (u ns : String) (pods : List ClusterPod) : List ClusterPod :=
  let ns' := if ns = "" then "default" else ns
  pods.filter (fun p => p.ns == ns' && selectorMatches u p)

/-- One cluster context as the reaper sees it: its pods plus whether
`GetKubernetesClient` and the pod `List` call succeed there. -/
structure ClusterCtx where
  name : String
  pods : List ClusterPod
  clientOk : Bool
  listOk : Bool
deriving DecidableEq

/-- Delete attempts the reaper issues for one context (`GUI.Start`,
`lib/gui.go`): a failed client or a failed list is logged and yields none. -/
def reaperCtxDeletions (u : String) (c : ClusterCtx) : List (String × ClusterPod) :=
  if c.clientOk = false then []
  else if c.listOk = false then []
  else (cleanupOrphanedPodsForUser u "default" c.pods).map (fun p => (c.name, p))

/-- The startup sweep of `GUI.Start`: iterate every known context, continuing
past per-context errors. -/
def reaperSweep (u : String) : List ClusterCtx → List (String × ClusterPod)
  | [] => []
  | c :: rest => reaperCtxDeletions u c ++ reaperSweep u rest

/-- Events of a trace that happen while the registry lock is held (lock depth
positive), computed from the recorded acquire/release events. -/
def eventsUnderLock : List Ev → Nat → List Ev
  | [], _ => []
  | Ev.lockAcquire :: rest, d => eventsUnderLock rest (d + 1)
  | Ev.lockRelease :: rest, d => eventsUnderLock rest (d - 1)
  | e :: rest, d => (if 0 < d then [e] else []) ++ eventsUnderLock rest d

/-- The per-row consistency demanded by the data-model invariants: pod name,
pod namespace and process handle all present together or all absent, and pod
identity recorded only while connected. -/
def rowInv (r : ProxyRow) : Prop :=
  ((r.socatPodName = "" ∧ r.socatNamespace = "" ∧ r.process = none) ∨
    (r.socatPodName ≠ "" ∧ r.socatNamespace ≠ "" ∧ r.process ≠ none)) ∧
  (r.connected = false → r.socatPodName = "" ∧ r.socatNamespace = "")

instance (r : ProxyRow) : Decidable (rowInv r) := by
  unfold rowInv
  infer_instance

/-- Registry-wide consistency. -/
def regInv (rows : Reg) : Prop :=
  ∀ k r, rows k = some r → rowInv r

/-- Number of trace events satisfying a predicate. -/
def countP (p : Ev → Bool) (tr : List Ev) : Nat :=
  (tr.filter p).length

/-- Recognizes relay-pod delete calls. -/
def isDeletePod : Ev → Bool
  | Ev.deletePod _ _ => true
  | _ => false

/-- Recognizes relay-pod create calls. -/
def isCreatePod : Ev → Bool
  | Ev.createPod _ _ => true
  | _ => false

/-- Recognizes Kubernetes client acquisitions. -/
def isGetClient : Ev → Bool
  | Ev.getClient _ => true
  | _ => false

/-- The generated relay pod name is never empty (it starts with the literal
tool prefix). -/
lemma connectPodName_ne_empty (env : ConnectEnv) (id : String) :
    connectPodName env id ≠ "" := by
  unfold connectPodName
  intro h
  have hl := congrArg String.length h
  simp only [String.length_append] at hl
  have h11 : ("aproxymate-" : String).length = 11 := by decide
  have h0 : ("" : String).length = 0 := by decide
  omega

/-- C5: Connect on an already-connected entry is rejected with the
already-connected error and has no side effects: the registry is returned
unchanged, no Kubernetes client is acquired, and no relay pod is created.
(A same-entry connect "in progress" is not separately observable: the source
holds the global registry lock for the whole connect, so a concurrent connect
serializes behind it and then observes `Connected = true`.) -/
theorem connect_rejects_connected (rows : Reg) (req : ConnectReq) (env : ConnectEnv)
    (row : ProxyRow) (hrow : rows req.id = some row) (hconn : row.connected = true) :
    (handleConnect rows req env).2.1 = Outcome.failure ApiError.alreadyConnected ∧
    (handleConnect rows req env).1 = rows ∧
    countP isGetClient (handleConnect rows req env).2.2 = 0 ∧
    countP isCreatePod (handleConnect rows req env).2.2 = 0 ∧
    (handleConnect rows req env).2.2 = [Ev.lockAcquire, Ev.lockRelease] := by
  simp [handleConnect, hrow, connectCore, hconn, countP, isGetClient, isCreatePod]

/-- Witness for C5 at a concrete registry holding a connected row with id 1. -/
theorem connect_rejects_connected_witness :
    ((fun k => if k = "1" then
        some (ProxyRow.mk "1" "dev" "db-svc" 15432 5432 true (some (Proc.mk false 0))
          "pod-1" "default" false)
      else none : Reg) "1" =
        some (ProxyRow.mk "1" "dev" "db-svc" 15432 5432 true (some (Proc.mk false 0))
          "pod-1" "default" false)) ∧
    (handleConnect
      (fun k => if k = "1" then
        some (ProxyRow.mk "1" "dev" "db-svc" 15432 5432 true (some (Proc.mk false 0))
          "pod-1" "default" false)
      else none)
      (ConnectReq.mk "1" "dev" "db-svc" 15432 5432)
      (ConnectEnv.mk true true true true "" false false 0 100 "alice")).2.1 =
      Outcome.failure ApiError.alreadyConnected :=
  ⟨rfl,
    (connect_rejects_connected
      (fun k => if k = "1" then
        some (ProxyRow.mk "1" "dev" "db-svc" 15432 5432 true (some (Proc.mk false 0))
          "pod-1" "default" false)
      else none)
      (ConnectReq.mk "1" "dev" "db-svc" 15432 5432)
      (ConnectEnv.mk true true true true "" false false 0 100 "alice")
      (ProxyRow.mk "1" "dev" "db-svc" 15432 5432 true (some (Proc.mk false 0))
        "pod-1" "default" false)
      rfl rfl).1⟩

/-- C10: Connect never reports a not-found error; when the requested id is
absent from the registry, a fresh disconnected entry is first built from the
request's cluster/host/ports and inserted, and the connect attempt then
proceeds on it (a Kubernetes client acquisition is issued). -/
theorem connect_upserts_missing_id (rows : Reg) (req : ConnectReq) (env : ConnectEnv)
    (habsent : rows req.id = none) :
    (handleConnect rows req env).2.1 ≠ Outcome.failure ApiError.notFound ∧
    (∃ r, (handleConnect rows req env).1 req.id = some r ∧
      r.cluster = req.cluster ∧ r.host = req.host ∧
      r.localPort = req.localPort ∧ r.remotePort = req.remotePort) ∧
    Ev.getClient req.cluster ∈ (handleConnect rows req env).2.2 := by
  simp only [handleConnect, habsent]
  unfold connectCore
  split_ifs with h1 h2 h3 h4 h5 h6 h7 <;>
    simp_all [newRowOfReq, Reg.insert]

/-- Witness for C10: connecting an id absent from the empty registry. -/
theorem connect_upserts_missing_id_witness :
    ((fun _ => none : Reg) "7" = none) ∧
    (handleConnect (fun _ => none) (ConnectReq.mk "7" "dev" "db-svc" 15432 5432)
        (ConnectEnv.mk true true true true "" false false 0 100 "alice")).2.1 ≠
      Outcome.failure ApiError.notFound ∧
    Ev.getClient "dev" ∈ (handleConnect (fun _ => none)
        (ConnectReq.mk "7" "dev" "db-svc" 15432 5432)
        (ConnectEnv.mk true true true true "" false false 0 100 "alice")).2.2 :=
  ⟨rfl,
    (connect_upserts_missing_id (fun _ => none)
      (ConnectReq.mk "7" "dev" "db-svc" 15432 5432)
      (ConnectEnv.mk true true true true "" false false 0 100 "alice") rfl).1,
    (connect_upserts_missing_id (fun _ => none)
      (ConnectReq.mk "7" "dev" "db-svc" 15432 5432)
      (ConnectEnv.mk true true true true "" false false 0 100 "alice") rfl).2.2⟩

/-- C9: removing an entry (DELETE `/api/proxy/{id}`) kills its process exactly
when the entry is connected with a live handle, deletes only that entry from
the registry, and never issues a relay-pod deletion — so a still-connected
entry's relay pod stays in the cluster after removal (until the startup
reaper sweeps it). -/
theorem remove_kills_but_keeps_pod (rows : Reg) (id : String) (row : ProxyRow)
    (hrow : rows id = some row) :
    (handleRemove rows id).1 = Reg.erase rows id ∧
    (handleRemove rows id).1 id = none ∧
    countP isDeletePod (handleRemove rows id).2 = 0 ∧
    (Ev.killProcess ∈ (handleRemove rows id).2 ↔
      row.connected = true ∧ row.process.isSome = true) := by
  refine ⟨?_, ?_, ?_, ?_⟩
  · simp [handleRemove, hrow]
  · simp [handleRemove, hrow, Reg.erase]
  · simp only [handleRemove, hrow]
    by_cases hc : row.connected && row.process.isSome <;>
      simp [hc, countP, isDeletePod]
  · simp only [handleRemove, hrow]
    by_cases hc : row.connected && row.process.isSome
    · rw [Bool.and_eq_true] at hc
      simp [hc.1, hc.2]
    · rw [Bool.and_eq_true] at hc
      push_neg at hc
      by_cases h1 : row.connected = true <;> simp_all

/-- Witness for C9: removing a connected entry with a live process. -/
theorem remove_kills_but_keeps_pod_witness :
    ((fun k => if k = "1" then
        some (ProxyRow.mk "1" "dev" "db-svc" 15432 5432 true (some (Proc.mk false 0))
          "pod-1" "default" false)
      else none : Reg) "1" =
        some (ProxyRow.mk "1" "dev" "db-svc" 15432 5432 true (some (Proc.mk false 0))
          "pod-1" "default" false)) ∧
    (countP isDeletePod (handleRemove
      (fun k => if k = "1" then
        some (ProxyRow.mk "1" "dev" "db-svc" 15432 5432 true (some (Proc.mk false 0))
          "pod-1" "default" false)
      else none) "1").2 = 0) :=
  ⟨rfl,
    (remove_kills_but_keeps_pod
      (fun k => if k = "1" then
        some (ProxyRow.mk "1" "dev" "db-svc" 15432 5432 true (some (Proc.mk false 0))
          "pod-1" "default" false)
      else none) "1"
      (ProxyRow.mk "1" "dev" "db-svc" 15432 5432 true (some (Proc.mk false 0))
        "pod-1" "default" false) rfl).2.2.1⟩

/-- C8: the source serializes everything behind one lock: evaluated on a
successful connect, the client acquisition, relay pod creation, pod-running
wait and subprocess start all happen while the registry's exclusive lock is
held (`g.mu.Lock()` with a deferred unlock spans the whole of
`handleConnect`), contradicting the requirement that blocking cluster I/O be
performed outside the lock. -/
theorem connect_holds_lock_across_io :
    (handleConnect (fun _ => none)
      (ConnectReq.mk "1" "dev" "db-svc" 15432 5432)
      (ConnectEnv.mk true true true true "" false false 0 100 "alice")).2.1 =
      Outcome.success ∧
    Ev.getClient "dev" ∈ eventsUnderLock
      (handleConnect (fun _ => none)
        (ConnectReq.mk "1" "dev" "db-svc" 15432 5432)
        (ConnectEnv.mk true true true true "" false false 0 100 "alice")).2.2 0 ∧
    Ev.createPod "default" "aproxymate-alice-1-100" ∈ eventsUnderLock
      (handleConnect (fun _ => none)
        (ConnectReq.mk "1" "dev" "db-svc" 15432 5432)
        (ConnectEnv.mk true true true true "" false false 0 100 "alice")).2.2 0 ∧
    Ev.waitRunning "default" "aproxymate-alice-1-100" ∈ eventsUnderLock
      (handleConnect (fun _ => none)
        (ConnectReq.mk "1" "dev" "db-svc" 15432 5432)
        (ConnectEnv.mk true true true true "" false false 0 100 "alice")).2.2 0 ∧
    Ev.startProcess ∈ eventsUnderLock
      (handleConnect (fun _ => none)
        (ConnectReq.mk "1" "dev" "db-svc" 15432 5432)
        (ConnectEnv.mk true true true true "" false false 0 100 "alice")).2.2 0 := by
  decide

/-- C1: Connect on a clean disconnected entry ends with the entry Connected
exactly on the all-success path (client acquisition, pod creation, pod-running
wait, subprocess start and the liveness checks); on any failure after the
relay pod was created a deletion of that pod is attempted before returning,
and the entry is left Disconnected with no pod identity or process handle. -/
theorem connect_lifecycle_cleanup (rows : Reg) (req : ConnectReq) (env : ConnectEnv)
    (row : ProxyRow) (hrow : rows req.id = some row) (hconn : row.connected = false)
    (hpod : row.socatPodName = "") (hns : row.socatNamespace = "")
    (hproc : row.process = none) :
    ((handleConnect rows req env).2.1 = Outcome.success →
      env.clientOk = true ∧ env.createOk = true ∧ env.waitOk = true ∧
        env.startOk = true ∧ env.procNil = false ∧ env.procExited = false) ∧
    ((handleConnect rows req env).2.1 = Outcome.success →
      (handleConnect rows req env).1 req.id = some { row with
        connected := true,
        process := some (Proc.mk false 0),
        socatPodName := connectPodName env req.id,
        socatNamespace := "default" }) ∧
    ((handleConnect rows req env).2.1 ≠ Outcome.success →
      (handleConnect rows req env).1 req.id = some row) ∧
    ((handleConnect rows req env).2.1 ≠ Outcome.success → env.clientOk = true →
      env.createOk = true →
      Ev.deletePod "default" (connectPodName env req.id) ∈ (handleConnect rows req env).2.2) := by
  simp only [handleConnect, hrow]
  unfold connectCore
  split_ifs with h1 h2 h3 h4 h5 h6 h7 <;>
    simp_all [Reg.insert]

/-- Witness for C1: a failing pod-running wait on a clean entry deletes the
created pod and leaves the entry untouched. -/
theorem connect_lifecycle_cleanup_witness :
    ((fun k => if k = "1" then
        some (ProxyRow.mk "1" "dev" "db-svc" 15432 5432 false none "" "" false)
      else none : Reg) "1" =
        some (ProxyRow.mk "1" "dev" "db-svc" 15432 5432 false none "" "" false)) ∧
    (Ev.deletePod "default"
        (connectPodName (ConnectEnv.mk true true false true "" false false 0 100 "alice") "1") ∈
      (handleConnect
        (fun k => if k = "1" then
          some (ProxyRow.mk "1" "dev" "db-svc" 15432 5432 false none "" "" false)
        else none)
        (ConnectReq.mk "1" "dev" "db-svc" 15432 5432)
        (ConnectEnv.mk true true false true "" false false 0 100 "alice")).2.2) :=
  ⟨rfl,
    (connect_lifecycle_cleanup
      (fun k => if k = "1" then
        some (ProxyRow.mk "1" "dev" "db-svc" 15432 5432 false none "" "" false)
      else none)
      (ConnectReq.mk "1" "dev" "db-svc" 15432 5432)
      (ConnectEnv.mk true true false true "" false false 0 100 "alice")
      (ProxyRow.mk "1" "dev" "db-svc" 15432 5432 false none "" "" false)
      rfl rfl rfl rfl rfl).2.2.2 (by decide) rfl rfl⟩

/-- C3: when the port-forward subprocess is found to have exited right after
start, Connect deletes the relay pod and fails with a ProcessStartError
classified by cause — privileged local port (≤ 1023) vs port already in use
(both on exit code 1), usage error (exit code 2) and generic failure
otherwise — and the rendered message differs per cause. -/
theorem early_exit_classified (rows : Reg) (req : ConnectReq) (env : ConnectEnv)
    (row : ProxyRow) (hrow : rows req.id = some row) (hconn : row.connected = false)
    (h1 : env.clientOk = true) (h2 : env.createOk = true) (h3 : env.waitOk = true)
    (h4 : env.startOk = true) (h5 : env.procNil = false) (h6 : env.procExited = true) :
    (handleConnect rows req env).2.1 =
      Outcome.failure (ApiError.processExitedEarly
        (earlyExitCause env.exitCode req.localPort req.cluster)) ∧
    Ev.deletePod "default" (connectPodName env req.id) ∈ (handleConnect rows req env).2.2 ∧
    (handleConnect rows req env).2.1 ≠ Outcome.success ∧
    (env.exitCode = 1 → req.localPort ≤ 1023 →
      earlyExitCause env.exitCode req.localPort req.cluster =
        StartFailCause.privilegedPort req.localPort) ∧
    (env.exitCode = 1 → 1023 < req.localPort →
      earlyExitCause env.exitCode req.localPort req.cluster =
        StartFailCause.portInUse req.localPort) ∧
    (env.exitCode = 2 →
      earlyExitCause env.exitCode req.localPort req.cluster =
        StartFailCause.usageError req.cluster) ∧
    (env.exitCode ≠ 1 → env.exitCode ≠ 2 →
      earlyExitCause env.exitCode req.localPort req.cluster =
        StartFailCause.generic env.exitCode req.localPort req.cluster) ∧
    startFailMsg (StartFailCause.privilegedPort 80) ≠
      startFailMsg (StartFailCause.portInUse 8080) ∧
    startFailMsg (StartFailCause.privilegedPort 80) ≠
      startFailMsg (StartFailCause.usageError "dev") ∧
    startFailMsg (StartFailCause.privilegedPort 80) ≠
      startFailMsg (StartFailCause.generic 3 15432 "dev") ∧
    startFailMsg (StartFailCause.portInUse 8080) ≠
      startFailMsg (StartFailCause.usageError "dev") ∧
    startFailMsg (StartFailCause.portInUse 8080) ≠
      startFailMsg (StartFailCause.generic 3 15432 "dev") ∧
    startFailMsg (StartFailCause.usageError "dev") ≠
      startFailMsg (StartFailCause.generic 3 15432 "dev") := by
  refine ⟨?_, ?_, ?_, ?_, ?_, ?_, ?_, ?_, ?_, ?_, ?_, ?_, ?_⟩
  · simp [handleConnect, hrow, connectCore, hconn, h1, h2, h3, h4, h5, h6]
  · simp [handleConnect, hrow, connectCore, hconn, h1, h2, h3, h4, h5, h6]
  · simp [handleConnect, hrow, connectCore, hconn, h1, h2, h3, h4, h5, h6]
  · intro he hp
    simp [earlyExitCause, he, hp]
  · intro he hp
    rw [earlyExitCause, if_pos he, if_neg (by omega)]
  · intro he
    by_cases h : env.exitCode = 1
    · omega
    · simp [earlyExitCause, he, h]
  · intro he1 he2
    simp [earlyExitCause, he1, he2]
  · decide
  · decide
  · decide
  · decide
  · decide
  · decide

/-- Witness for C3: exit code 1 on privileged local port 80. -/
theorem early_exit_classified_witness :
    ((fun k => if k = "1" then
        some (ProxyRow.mk "1" "dev" "db-svc" 80 5432 false none "" "" false)
      else none : Reg) "1" =
        some (ProxyRow.mk "1" "dev" "db-svc" 80 5432 false none "" "" false)) ∧
    (handleConnect
      (fun k => if k = "1" then
        some (ProxyRow.mk "1" "dev" "db-svc" 80 5432 false none "" "" false)
      else none)
      (ConnectReq.mk "1" "dev" "db-svc" 80 5432)
      (ConnectEnv.mk true true true true "" false true 1 100 "alice")).2.1 =
        Outcome.failure (ApiError.processExitedEarly
          (earlyExitCause 1 80 "dev")) :=
  ⟨rfl,
    (early_exit_classified
      (fun k => if k = "1" then
        some (ProxyRow.mk "1" "dev" "db-svc" 80 5432 false none "" "" false)
      else none)
      (ConnectReq.mk "1" "dev" "db-svc" 80 5432)
      (ConnectEnv.mk true true true true "" false true 1 100 "alice")
      (ProxyRow.mk "1" "dev" "db-svc" 80 5432 false none "" "" false)
      rfl rfl rfl rfl rfl rfl rfl rfl).1⟩

/-- C4: Disconnect on a connected entry always succeeds and ends with the
entry Disconnected: the intentional-stop flag is set before the process is
killed (visible in the trace order), the pod cleanup is attempted once —
exactly one delete call when a client can be acquired, never more — kill and
delete errors never fail the call, pod identity and process handle are
cleared, and the exit watcher that later observes the killed process finds
nothing left to delete. -/
theorem disconnect_teardown (rows : Reg) (id : String) (env : DisconnectEnv)
    (row : ProxyRow) (p : Proc) (hrow : rows id = some row)
    (hconn : row.connected = true) (hproc : row.process = some p)
    (hpod : row.socatPodName ≠ "") :
    (handleDisconnect rows id env).2.1 = Outcome.success ∧
    (handleDisconnect rows id env).1 = Reg.insert rows id { row with
      connected := false,
      process := none,
      socatPodName := "",
      socatNamespace := "",
      intentionalStop := true } ∧
    (handleDisconnect rows id env).2.2 =
      Ev.lockAcquire :: Ev.setIntentionalStop :: Ev.killProcess ::
        Ev.getClient row.cluster ::
        ((if env.clientOk then [Ev.deletePod row.socatNamespace row.socatPodName] else []) ++
          [Ev.lockRelease]) ∧
    countP isDeletePod (handleDisconnect rows id env).2.2 ≤ 1 ∧
    (env.clientOk = true → countP isDeletePod (handleDisconnect rows id env).2.2 = 1) ∧
    (exitWatcher (handleDisconnect rows id env).1 id (WatchEnv.mk true true)).2.1 = [] := by
  refine ⟨?_, ?_, ?_, ?_, ?_, ?_⟩
  · simp [handleDisconnect, hrow, hconn, hproc]
  · simp [handleDisconnect, hrow, hconn, hproc, hpod]
  · simp [handleDisconnect, hrow, hconn, hproc, hpod]
  · simp only [handleDisconnect, hrow, hconn, hproc]
    by_cases hc : env.clientOk <;> simp [hc, hpod, countP, isDeletePod]
  · intro hc
    simp [handleDisconnect, hrow, hconn, hproc, hpod, hc, countP, isDeletePod]
  · simp [handleDisconnect, hrow, hconn, hproc, hpod, exitWatcher, Reg.insert, watcherRow]

/-- Witness for C4: disconnecting a connected entry with a recorded pod and a
reachable cluster. -/
theorem disconnect_teardown_witness :
    ((fun k => if k = "1" then
        some (ProxyRow.mk "1" "dev" "db-svc" 15432 5432 true (some (Proc.mk false 0))
          "pod-1" "default" false)
      else none : Reg) "1" =
        some (ProxyRow.mk "1" "dev" "db-svc" 15432 5432 true (some (Proc.mk false 0))
          "pod-1" "default" false)) ∧
    (handleDisconnect
      (fun k => if k = "1" then
        some (ProxyRow.mk "1" "dev" "db-svc" 15432 5432 true (some (Proc.mk false 0))
          "pod-1" "default" false)
      else none) "1" (DisconnectEnv.mk true false false)).2.1 = Outcome.success :=
  ⟨rfl,
    (disconnect_teardown
      (fun k => if k = "1" then
        some (ProxyRow.mk "1" "dev" "db-svc" 15432 5432 true (some (Proc.mk false 0))
          "pod-1" "default" false)
      else none) "1" (DisconnectEnv.mk true false false)
      (ProxyRow.mk "1" "dev" "db-svc" 15432 5432 true (some (Proc.mk false 0))
        "pod-1" "default" false)
      (Proc.mk false 0) rfl rfl rfl (by decide)).1⟩

/-- Inserting a consistent row preserves registry-wide consistency. -/
lemma regInv_insert {rows : Reg} {k : String} {r : ProxyRow}
    (h : regInv rows) (hr : rowInv r) : regInv (Reg.insert rows k r) := by
  intro q s hq
  unfold Reg.insert at hq
  split at hq
  · exact (Option.some.inj hq) ▸ hr
  · exact h q s hq

/-- The freshly inserted row of a connect on an unknown id is consistent. -/
lemma rowInv_newRow (req : ConnectReq) : rowInv (newRowOfReq req) := by
  unfold rowInv newRowOfReq
  simp

/-- The row committed by a successful connect is consistent. -/
lemma rowInv_connect_success (row : ProxyRow) (env : ConnectEnv) (id : String) :
    rowInv { row with
      connected := true,
      process := some (Proc.mk false 0),
      socatPodName := connectPodName env id,
      socatNamespace := "default" } := by
  unfold rowInv
  constructor
  · right
    refine ⟨connectPodName_ne_empty env id, ?_, ?_⟩
    · show ("default" : String) ≠ ""
      decide
    · simp
  · simp

/-- The connect body preserves registry consistency. -/
lemma connectCore_preserves (rows : Reg) (row : ProxyRow) (req : ConnectReq)
    (env : ConnectEnv) (h : regInv rows) : regInv (connectCore rows row req env).1 := by
  unfold connectCore
  split_ifs <;> dsimp only <;>
    first
      | exact h
      | exact regInv_insert h (rowInv_connect_success row env req.id)

/-- `handleConnect` preserves registry consistency. -/
lemma connect_preserves_regInv (rows : Reg) (req : ConnectReq) (env : ConnectEnv)
    (h : regInv rows) : regInv (handleConnect rows req env).1 := by
  unfold handleConnect
  cases hrow : rows req.id with
  | none => exact connectCore_preserves _ _ _ _ (regInv_insert h (rowInv_newRow req))
  | some row => exact connectCore_preserves _ _ _ _ h

/-- `handleDisconnect` preserves registry consistency. -/
lemma disconnect_preserves_regInv (rows : Reg) (id : String) (env : DisconnectEnv)
    (h : regInv rows) : regInv (handleDisconnect rows id env).1 := by
  unfold handleDisconnect
  cases hrow : rows id with
  | none => exact h
  | some row =>
      by_cases hc : row.connected = false
      · simp only [hc, if_true]
        exact h
      · simp only [hc, if_false]
        apply regInv_insert h
        have hr := h id row hrow
        unfold rowInv at hr ⊢
        by_cases hp : row.socatPodName = ""
        · have hns : row.socatNamespace = "" := by
            rcases hr.1 with ⟨_, h2, _⟩ | ⟨h1, _, _⟩
            · exact h2
            · exact absurd hp h1
          cases hpr : row.process <;> simp [hp, hns, hpr]
        · cases hpr : row.process <;> simp [hp, hpr]

/-- The exit watcher preserves registry consistency. -/
lemma watcher_preserves_regInv (rows : Reg) (id : String) (env : WatchEnv)
    (h : regInv rows) : regInv (exitWatcher rows id env).1 := by
  unfold exitWatcher
  cases hrow : rows id with
  | none => exact h
  | some row =>
      dsimp only
      apply regInv_insert h
      have hr := h id row hrow
      unfold watcherRow rowInv at hr ⊢
      by_cases hp : row.socatPodName = ""
      · have hns : row.socatNamespace = "" := by
          rcases hr.1 with ⟨_, h2, _⟩ | ⟨h1, _, _⟩
          · exact h2
          · exact absurd hp h1
        simp [hp, hns]
      · simp [hp]

/-- A status poll only ever clears `Connected` and the process handle; the pod
identity fields are carried over unchanged. -/
lemma status_shape (rows : Reg) (k : String) (r : ProxyRow)
    (h : handleStatus rows k = some r) :
    ∃ r0, rows k = some r0 ∧ r.socatPodName = r0.socatPodName ∧
      r.socatNamespace = r0.socatNamespace ∧
      (r = r0 ∨ (r.connected = false ∧ r.process = none)) := by
  unfold handleStatus at h
  cases h0 : rows k with
  | none => rw [h0] at h; simp at h
  | some r0 =>
      rw [h0] at h
      simp only [Option.map_some'] at h
      refine ⟨r0, rfl, ?_⟩
      cases hp : r0.process with
      | none =>
          simp only [statusRow, hp] at h
          have hx := Option.some.inj h
          subst hx
          exact ⟨rfl, rfl, Or.inl rfl⟩
      | some p =>
          by_cases he : p.exited = true
          · simp only [statusRow, hp, he, if_true] at h
            have hx := Option.some.inj h
            subst hx
            exact ⟨rfl, rfl, Or.inr ⟨rfl, rfl⟩⟩
          · simp only [statusRow, hp, if_neg he] at h
            have hx := Option.some.inj h
            subst hx
            exact ⟨rfl, rfl, Or.inl rfl⟩

/-- C2 counterexample: a status poll that observes an exited process clears
`Connected` and the handle but leaves the pod identity recorded, so the
all-present-together-or-all-absent invariant is violated right after a status
poll. -/
theorem status_partial_state_cex :
    rowInv (ProxyRow.mk "1" "dev" "db-svc" 15432 5432 true (some (Proc.mk true 1))
      "pod-1" "default" false) ∧
    handleStatus
      (fun k => if k = "1" then
        some (ProxyRow.mk "1" "dev" "db-svc" 15432 5432 true (some (Proc.mk true 1))
          "pod-1" "default" false)
      else none) "1" =
      some (ProxyRow.mk "1" "dev" "db-svc" 15432 5432 false none "pod-1" "default" false) ∧
    ¬ rowInv (ProxyRow.mk "1" "dev" "db-svc" 15432 5432 false none "pod-1" "default" false) := by
  refine ⟨by decide, by decide, by decide⟩

/-- C2 (amended): connect, disconnect and exit-watcher completion preserve the
all-present-together-or-all-absent invariant and keep pod identity only on
non-disconnected entries; a status poll, however, only clears `Connected` and
the process handle and carries the pod identity over unchanged, so its result
can be partial until the exit watcher completes. -/
theorem state_invariant_after_ops :
    (∀ rows req env, regInv rows → regInv (handleConnect rows req env).1) ∧
    (∀ rows id env, regInv rows → regInv (handleDisconnect rows id env).1) ∧
    (∀ rows id env, regInv rows → regInv (exitWatcher rows id env).1) ∧
    (∀ rows k r, handleStatus rows k = some r →
      ∃ r0, rows k = some r0 ∧ r.socatPodName = r0.socatPodName ∧
        r.socatNamespace = r0.socatNamespace ∧
        (r = r0 ∨ (r.connected = false ∧ r.process = none))) :=
  ⟨connect_preserves_regInv, disconnect_preserves_regInv,
    watcher_preserves_regInv, status_shape⟩

/-- Witness for C2: starting from the empty registry (whose consistency is
discharged explicitly), the row a concrete successful connect commits is
consistent. -/
theorem state_invariant_after_ops_witness :
    rowInv (ProxyRow.mk "1" "dev" "db-svc" 15432 5432 true (some (Proc.mk false 0))
      "aproxymate-alice-1-100" "default" false) :=
  state_invariant_after_ops.1 (fun _ => none)
    (ConnectReq.mk "1" "dev" "db-svc" 15432 5432)
    (ConnectEnv.mk true true true true "" false false 0 100 "alice")
    (fun _ _ h => Option.noConfusion h)
    "1"
    (ProxyRow.mk "1" "dev" "db-svc" 15432 5432 true (some (Proc.mk false 0))
      "aproxymate-alice-1-100" "default" false)
    (by decide)

/-- C6 counterexample: an error-free subprocess exit on an entry whose
`intentionalStop` flag is set is classified as a plain normal exit (not as
intentional), and with no acquirable client the still-recorded relay pod gets
no delete call (the trace holds only the failed client acquisition), though
the identity is cleared. -/
theorem watcher_flag_ignored_cex :
    (ProxyRow.mk "1" "dev" "db-svc" 15432 5432 true (some (Proc.mk false 0))
      "pod-1" "default" true).intentionalStop = true ∧
    (ProxyRow.mk "1" "dev" "db-svc" 15432 5432 true (some (Proc.mk false 0))
      "pod-1" "default" true).socatPodName = "pod-1" ∧
    (exitWatcher
      (fun k => if k = "1" then
        some (ProxyRow.mk "1" "dev" "db-svc" 15432 5432 true (some (Proc.mk false 0))
          "pod-1" "default" true)
      else none) "1" (WatchEnv.mk false false)).2.2 = some ExitClass.normalExit ∧
    ExitClass.normalExit ≠ ExitClass.intentional ∧
    (exitWatcher
      (fun k => if k = "1" then
        some (ProxyRow.mk "1" "dev" "db-svc" 15432 5432 true (some (Proc.mk false 0))
          "pod-1" "default" true)
      else none) "1" (WatchEnv.mk false false)).2.1 = [Ev.getClient "dev"] := by
  refine ⟨by decide, by decide, by decide, by decide, by decide⟩

/-- C6 (amended): when the exit watcher runs on a connected entry it marks it
Disconnected, clears the process handle, clears the pod identity, and deletes
the relay pod when one is still recorded and a cluster client can be
acquired; an erroring wait is classified intentional exactly when
`intentionalStop` was set and unexpected otherwise, while an error-free exit
is logged as a normal exit regardless of the flag; the flag is left false. -/
theorem watcher_cleanup_classification (rows : Reg) (id : String) (env : WatchEnv)
    (row : ProxyRow) (hrow : rows id = some row) (hconn : row.connected = true) :
    (exitWatcher rows id env).1 = Reg.insert rows id { row with
      connected := false,
      process := none,
      socatPodName := "",
      socatNamespace := if row.socatPodName = "" then row.socatNamespace else "",
      intentionalStop := false } ∧
    (env.waitErr = true →
      (exitWatcher rows id env).2.2 =
        some (if row.intentionalStop then ExitClass.intentional else ExitClass.unexpected)) ∧
    (env.waitErr = false →
      (exitWatcher rows id env).2.2 = some ExitClass.normalExit) ∧
    (row.socatPodName ≠ "" → env.clientOk = true →
      Ev.deletePod row.socatNamespace row.socatPodName ∈ (exitWatcher rows id env).2.1) ∧
    countP isDeletePod (exitWatcher rows id env).2.1 ≤ 1 := by
  refine ⟨?_, ?_, ?_, ?_, ?_⟩
  · simp only [exitWatcher, hrow, watcherRow]
    by_cases hp : row.socatPodName = "" <;> simp [hp]
  · intro hw
    simp only [exitWatcher, hrow, watcherRow]
    by_cases hp : row.socatPodName = "" <;> simp [hp, hw]
  · intro hw
    simp only [exitWatcher, hrow, watcherRow]
    by_cases hp : row.socatPodName = "" <;> simp [hp, hw]
  · intro hp hc
    simp [exitWatcher, hrow, watcherRow, hp, hc]
  · simp only [exitWatcher, hrow, watcherRow]
    by_cases hp : row.socatPodName = "" <;> by_cases hc : env.clientOk <;>
      simp [hp, hc, countP, isDeletePod]

/-- Witness for C6 at a concrete connected entry with a recorded pod, an
erroring wait, the flag set, and a reachable cluster. -/
theorem watcher_cleanup_classification_witness :
    ((fun k => if k = "1" then
        some (ProxyRow.mk "1" "dev" "db-svc" 15432 5432 true (some (Proc.mk false 0))
          "pod-1" "default" true)
      else none : Reg) "1" =
        some (ProxyRow.mk "1" "dev" "db-svc" 15432 5432 true (some (Proc.mk false 0))
          "pod-1" "default" true)) ∧
    (exitWatcher
      (fun k => if k = "1" then
        some (ProxyRow.mk "1" "dev" "db-svc" 15432 5432 true (some (Proc.mk false 0))
          "pod-1" "default" true)
      else none) "1" (WatchEnv.mk true true)).2.2 = some ExitClass.intentional :=
  ⟨rfl,
    (watcher_cleanup_classification
      (fun k => if k = "1" then
        some (ProxyRow.mk "1" "dev" "db-svc" 15432 5432 true (some (Proc.mk false 0))
          "pod-1" "default" true)
      else none) "1" (WatchEnv.mk true true)
      (ProxyRow.mk "1" "dev" "db-svc" 15432 5432 true (some (Proc.mk false 0))
        "pod-1" "default" true)
      rfl rfl).2.1 rfl⟩

/-- Delete attempts of one reaper context, characterized. -/
lemma mem_reaperCtxDeletions (u : String) (ctx : ClusterCtx) (c : String)
    (p : ClusterPod) :
    (c, p) ∈ reaperCtxDeletions u ctx ↔
      ctx.name = c ∧ ctx.clientOk = true ∧ ctx.listOk = true ∧
        p ∈ ctx.pods ∧ p.ns = "default" ∧ selectorMatches u p = true := by
  unfold reaperCtxDeletions cleanupOrphanedPodsForUser
  by_cases h1 : ctx.clientOk = false
  · simp [h1]
  · by_cases h2 : ctx.listOk = false
    · simp [h1, h2]
    · rw [if_neg h1, if_neg h2]
      rw [Bool.not_eq_false] at h1 h2
      simp only [List.mem_map, List.mem_filter, if_neg (by decide : ¬("default" : String) = "")]
      constructor
      · rintro ⟨q, ⟨hq, hcond⟩, heq⟩
        rw [Bool.and_eq_true, beq_iff_eq] at hcond
        cases heq
        exact ⟨rfl, h1, h2, hq, hcond.1, hcond.2⟩
      · rintro ⟨hname, _, _, hq, hns, hsel⟩
        exact ⟨p, ⟨hq, by rw [Bool.and_eq_true, beq_iff_eq]; exact ⟨hns, hsel⟩⟩,
          by rw [hname]⟩

/-- C7 counterexample: a pod that matches the ownership selector but lives
outside the `default` namespace is not deleted by the startup sweep, so the
sweep does not delete "exactly the pods matching the selector". -/
theorem reaper_namespace_cex :
    selectorMatches "alice" (ClusterPod.mk "p1" "kube-system" true "alice") = true ∧
    reaperSweep "alice"
      [ClusterCtx.mk "dev" [ClusterPod.mk "p1" "kube-system" true "alice"] true true] = [] := by
  refine ⟨by decide, by decide⟩

/-- C7 (amended): the startup sweep deletes exactly the pods of the `default`
namespace matching the ownership selector, in every context where a client
could be obtained and the pod list succeeded, and no others; a per-context
failure contributes nothing and never aborts the scan of the remaining
contexts (the sweep of `ctx :: rest` is always the per-context part followed
by the sweep of `rest`). -/
theorem reaper_deletes_matching_default (u : String) (ctxs : List ClusterCtx)
    (c : String) (p : ClusterPod) :
    ((c, p) ∈ reaperSweep u ctxs ↔
      ∃ ctx, ctx ∈ ctxs ∧ ctx.name = c ∧ ctx.clientOk = true ∧ ctx.listOk = true ∧
        p ∈ ctx.pods ∧ p.ns = "default" ∧ selectorMatches u p = true) ∧
    (∀ hd rest, reaperSweep u (hd :: rest) =
      reaperCtxDeletions u hd ++ reaperSweep u rest) := by
  refine ⟨?_, fun hd rest => rfl⟩
  induction ctxs with
  | nil => simp [reaperSweep]
  | cons hd tl ih =>
      simp only [reaperSweep, List.mem_append, ih, mem_reaperCtxDeletions,
        List.mem_cons]
      constructor
      · rintro (h | ⟨ctx, hctx, hrest⟩)
        · exact ⟨hd, Or.inl rfl, h⟩
        · exact ⟨ctx, Or.inr hctx, hrest⟩
      · rintro ⟨ctx, hmem | hmem, hrest⟩
        · exact Or.inl (hmem ▸ hrest)
        · exact Or.inr ⟨ctx, hmem, hrest⟩

/-- Witness for C7: a one-context sweep with a matching default-namespace pod
deletes exactly that pod. -/
theorem reaper_deletes_matching_default_witness :
    (("dev", ClusterPod.mk "p1" "default" true "alice") ∈
      reaperSweep "alice"
        [ClusterCtx.mk "dev" [ClusterPod.mk "p1" "default" true "alice",
          ClusterPod.mk "p2" "default" false "alice"] true true]) ∧
    reaperSweep "alice"
      [ClusterCtx.mk "dev" [ClusterPod.mk "p1" "default" true "alice",
        ClusterPod.mk "p2" "default" false "alice"] true true] =
      [("dev", ClusterPod.mk "p1" "default" true "alice")] :=
  ⟨(reaper_deletes_matching_default "alice"
      [ClusterCtx.mk "dev" [ClusterPod.mk "p1" "default" true "alice",
        ClusterPod.mk "p2" "default" false "alice"] true true]
      "dev" (ClusterPod.mk "p1" "default" true "alice")).1.mpr
    ⟨ClusterCtx.mk "dev" [ClusterPod.mk "p1" "default" true "alice",
        ClusterPod.mk "p2" "default" false "alice"] true true,
      by decide, rfl, rfl, rfl, by decide, rfl, rfl⟩,
    by decide⟩

end Aproxymate
